import Mathlib

/-!
Verification development for the ai-news-intelligence pipeline.

Shallow embedding of the repository's services:
  * `NewsFetcher`   — src/services/news_fetcher.py
  * `GnewsFetcher`  — src/app/gnews_fetcher.py
  * `Clustering`    — src/services/clustering_service.py
  * `Rag`           — src/services/rag_service.py
  * `Extractor`     — src/app/article_extractor.py

External effects (HTTP calls, the embedding model, DBSCAN, FAISS, the
generation model) are passed in as explicit function parameters whose
result type records success/failure (`Option` / `Except`), exactly at
the points where the Python code performs the corresponding calls.
Python dict `.get` accesses are modelled with `Option` fields.
-/

namespace NewsFetcher

/-- One search-API result as assembled by `fetch_news`
(src/services/news_fetcher.py lines 50-58): every field comes from a
Python `dict.get`, hence is optional. -/
structure ApiArticle where
  title : Option String
  url : Option String
  snippet : Option String
  source_name : Option String
  published_at : Option String
deriving DecidableEq, Repr

/-- Status tag of one scrape outcome (`"success"` / `"failed"`). -/
inductive ScrapeStatus where
  | success
  | failed
deriving DecidableEq, Repr

/-- The record returned by `fetch_one_article` for one url. -/
structure ScrapeResult where
  url : Option String
  full_text : Option String
  snippet : Option String
  published_date : Option String
  status : ScrapeStatus
deriving DecidableEq, Repr

/-- `fetch_one_article` (src/services/news_fetcher.py lines 70-104).
The HTTP fetch + BeautifulSoup extraction is the parameter
`scrape : Option String → Option String`: `some text` when the `try`
block reaches the return, `none` when any exception (timeout, network
error, parse error) is raised and caught by the `except` clause.  On
success the snippet is `full_text[:150] + "..."` and the published
date is the hard-coded `"2025-11-05"`; on failure every data field is
`None` and the record is tagged `failed`. -/
def fetch_one_article (scrape : Option String → Option String)
    (url : Option String) : ScrapeResult :=
  match scrape url with
  | some text =>
      { url := url
        full_text := some text
        snippet := some (text.take 150 ++ "...")
        published_date := some "2025-11-05"
        status := .success }
  | none =>
      { url := url
        full_text := none
        snippet := none
        published_date := none
        status := .failed }

/-- The list built by `asyncio.gather` in `fetch_all_articles`
(lines 126-132): one task per search result, outcome order matches
input order. -/
def scrape_results (scrape : Option String → Option String)
    (api : List ApiArticle) : List ScrapeResult :=
  api.map (fun a => fetch_one_article scrape a.url)

/-- Lookup in `scraped_map = {res['url']: res for res in scraped_results
if res['status'] == 'success'}` (line 136): only successful results are
kept and, as in a Python dict comprehension, a later entry with the same
key overwrites an earlier one. -/
def scraped_lookup (results : List ScrapeResult) (url : Option String) :
    Option ScrapeResult :=
  ((results.filter (fun r => r.status = .success)).reverse).find?
    (fun r => r.url = url)

/-- A merged output Article (search-API metadata plus scraped body). -/
structure Article where
  title : Option String
  url : Option String
  snippet : Option String
  source_name : Option String
  published_at : Option String
  full_text : Option String
deriving DecidableEq, Repr

/-- The merge of lines 142-147: `merged_article = api_article.copy()`
then `full_text` and `snippet` are overwritten from the scraped data. -/
def mergeArticle (api : ApiArticle) (sd : ScrapeResult) : Article :=
  { title := api.title
    url := api.url
    snippet := sd.snippet
    source_name := api.source_name
    published_at := api.published_at
    full_text := sd.full_text }

/-- `fetch_all_articles` (src/services/news_fetcher.py lines 107-149):
empty search result short-circuits to `[]`; otherwise every search
result is scraped concurrently, successful scrapes are collected into
`scraped_map`, and the final list keeps, in search order, exactly the
api articles whose url is in the map, merged with the scraped data. -/
def fetch_all_articles (scrape : Option String → Option String)
    (api : List ApiArticle) : List Article :=
  if api.isEmpty then []
  else
    api.filterMap (fun a =>
      match scraped_lookup (scrape_results scrape api) a.url with
      | some sd => some (mergeArticle a sd)
      | none => none)

/-- The `source` sub-object of one NewsAPI item (`item.get("source", {})`). -/
structure NewsApiSource where
  name : Option String
deriving DecidableEq, Repr

/-- One raw item of the NewsAPI JSON payload; every field is read with
`.get`, hence optional. -/
structure NewsApiItem where
  title : Option String
  url : Option String
  description : Option String
  source : Option NewsApiSource
  publishedAt : Option String
deriving DecidableEq, Repr

/-- A parsed NewsAPI payload: `data.get("articles", [])`. -/
structure NewsApiData where
  articles : Option (List NewsApiItem)
deriving DecidableEq, Repr

/-- `fetch_news` (src/services/news_fetcher.py lines 15-67).  The whole
HTTP round-trip of the `try` block — `client.get`, `raise_for_status`,
`response.json()` — is the parameter `httpResult`: `some data` when it
all succeeds, `none` when any of it raises (HTTP error status, network
error, malformed payload), in which case the `except` clauses return
`[]`.  A missing API key also short-circuits to `[]`. -/
def fetch_news (hasApiKey : Bool) (httpResult : Option NewsApiData) :
    List ApiArticle :=
  if !hasApiKey then []
  else
    match httpResult with
    | none => []
    | some data =>
        (data.articles.getD []).map (fun item =>
          { title := item.title
            url := item.url
            snippet := item.description
            source_name := (item.source.getD { name := none }).name
            published_at := item.publishedAt })

end NewsFetcher

namespace GnewsFetcher

/-- `item["source"]` sub-object of one GNews item. -/
structure GnewsSource where
  name : Option String
deriving DecidableEq, Repr

/-- One item of the GNews payload.  Fields are optional because the
JSON may lack them; the Python code indexes them directly
(`item["title"]`), which raises `KeyError` when absent. -/
structure GnewsItem where
  title : Option String
  url : Option String
  source : Option GnewsSource
  publishedAt : Option String
deriving DecidableEq, Repr

/-- A parsed GNews payload; `articles` is `none` when the key
`"articles"` is not in the response dict. -/
structure GnewsData where
  articles : Option (List GnewsItem)
deriving DecidableEq, Repr

/-- One output article of the GNews fetcher. -/
structure GnewsArticle where
  title : String
  url : String
  source : String
  published : String
deriving DecidableEq, Repr

/-- Python `item["key"]`: the value when present, a raised `KeyError`
when absent. -/
def requireField {α : Type} : Option α → Except String α
  | some v => Except.ok v
  | none => Except.error "KeyError"

/-- The `for item in data["articles"]` loop (lines 15-22): each item is
turned into an output article by direct key access, in order, and the
first missing key raises `KeyError`, aborting the whole call. -/
def extract_items : List GnewsItem → Except String (List GnewsArticle)
  | [] => Except.ok []
  | item :: rest => do
      let t ← requireField item.title
      let u ← requireField item.url
      let s ← requireField item.source
      let n ← requireField s.name
      let p ← requireField item.publishedAt
      let tail ← extract_items rest
      return { title := t, url := u, source := n, published := p } :: tail

/-- `fetch_news` (src/app/gnews_fetcher.py lines 4-23).  This variant
has no `try`/`except`: `requests.get` raising (network error) and
`response.json()` raising (non-JSON payload) propagate to the caller,
as does a `KeyError` from a missing item field.  `httpResponse` is
`none` when `requests.get` raises, `some none` when the body is not
JSON, and `some (some data)` otherwise.  Only a payload without an
`"articles"` key yields `[]`. -/
def fetch_news (httpResponse : Option (Option GnewsData)) :
    Except String (List GnewsArticle) :=
  match httpResponse with
  | none => Except.error "requests.get raised"
  | some none => Except.error "response.json raised"
  | some (some data) =>
      match data.articles with
      | none => Except.ok []
      | some items => extract_items items

end GnewsFetcher

namespace Clustering

/-- An article carrying its assigned theme.  Python mutates the article
dict in place (`article['theme_id'] = ...`); the embedding pairs the
untouched article data with the `theme_id` the function writes. -/
structure ThemedArticle where
  article : NewsFetcher.Article
  theme_id : Int
deriving DecidableEq, Repr

/-- `articles[i]['theme_id'] = label`: overwrite the theme of the
element at index `i`, leaving everything else unchanged (out-of-range
writes cannot happen in the source; they are the identity here). -/
def setTheme : List ThemedArticle → Nat → Int → List ThemedArticle
  | [], _, _ => []
  | a :: rest, 0, label => { a with theme_id := label } :: rest
  | a :: rest, n + 1, label => a :: setTheme rest n label

/-- The assignment loop of `group_by_theme` (lines 89-95): for each
`(i, label)` pair, write `label` into the article at original index
`i`.  `zip` mirrors Python's `enumerate(labels)` indexed through
`original_indices`. -/
def assignLabels (arts : List ThemedArticle) (idxs : List Nat)
    (labels : List Int) : List ThemedArticle :=
  (idxs.zip labels).foldl (fun acc p => setTheme acc p.1 p.2) arts

/-- The default assignment loop (lines 43-44): every article first
gets `theme_id = -1`. -/
def defaultThemes (articles : List NewsFetcher.Article) :
    List ThemedArticle :=
  articles.map (fun a => { article := a, theme_id := -1 })

/-- The `articles_to_cluster` list (lines 39-50): the
`(original_index, full_text)` pairs of the articles whose `full_text`
is present and longer than 50 characters. -/
def articles_to_cluster (articles : List NewsFetcher.Article) :
    List (Nat × String) :=
  (articles.enum).filterMap (fun p =>
    match p.2.full_text with
    | some content =>
        if content.length > 50 then some (p.1, content) else none
    | none => none)

/-- `group_by_theme` (src/services/clustering_service.py lines 18-100),
parameterized by its external collaborators:
`modelLoaded` — whether the sentence-transformer loaded at import time;
`encode` — `model.encode` on the participating texts, `none` when it
raises; `dbscan` — `DBSCAN(eps=0.25, min_samples=2).fit(...).labels_`.
Paths, in source order: model missing ⇒ every article gets its index as
a fallback theme; empty input ⇒ `[]`; all articles default to `-1`,
articles with more than 50 characters of `full_text` are collected with
their original indices; none collected ⇒ return the defaults; encoding
failure ⇒ return the defaults; otherwise DBSCAN labels are written back
through the original indices. -/
def group_by_theme {E : Type} (modelLoaded : Bool)
    (encode : List String → Option (List E))
    (dbscan : List E → List Int)
    (articles : List NewsFetcher.Article) : List ThemedArticle :=
  if !modelLoaded then
    (articles.enum).map (fun p => { article := p.2, theme_id := (p.1 : Int) })
  else if articles.isEmpty then []
  else if (articles_to_cluster articles).isEmpty then
    defaultThemes articles
  else
    match encode ((articles_to_cluster articles).map (fun q => q.2)) with
    | none => defaultThemes articles
    | some embeddings =>
        assignLabels (defaultThemes articles)
          ((articles_to_cluster articles).map (fun q => q.1))
          (dbscan embeddings)

end Clustering

namespace Extractor

/-- The minimum extracted-text length accepted by `extract_text`
(`len(...) > 300` in src/app/article_extractor.py). -/
def MIN_TEXT_LEN : Nat := 300

/-- The Trafilatura fallback block (lines 17-23): `fallback` is `none`
when `fetch_url`/`extract` raises (swallowed by the bare `except`),
`some none` when `extract` returns `None`, `some (some e)` when it
returns the string `e`.  The text is accepted only when it is truthy
and longer than the threshold; otherwise the function falls through to
`return ""`. -/
def extract_fallback : Option (Option String) → String
  | some (some e) => if e ≠ "" ∧ e.length > MIN_TEXT_LEN then e else ""
  | _ => ""

/-- `extract_text` (src/app/article_extractor.py lines 4-25).
`primary` is the Newspaper3k result: `none` when `download`/`parse`
raises, `some t` with the parsed text otherwise.  The primary text is
returned only when longer than the threshold; in every other case the
Trafilatura fallback decides. -/
def extract_text (primary : Option String)
    (fallback : Option (Option String)) : String :=
  match primary with
  | some t =>
      if t.length > MIN_TEXT_LEN then t else extract_fallback fallback
  | none => extract_fallback fallback

/-- The extraction policy in the spec's words: apply the primary
heuristic and return its result if it exceeds the minimum length;
otherwise apply the fallback heuristic and return its result if it
exceeds the minimum length; if both fail or fall short, return `""`. -/
def sufficient : Option String → Bool
  | some t => decide (t.length > MIN_TEXT_LEN)
  | none => false

/-- Spec-side restatement of the extraction policy, to be compared with
the embedded `extract_text`. -/
def extract_text_spec (primary : Option String)
    (fallback : Option (Option String)) : String :=
  if sufficient primary then primary.getD ""
  else if sufficient (fallback.getD none) then (fallback.getD none).getD ""
  else ""

end Extractor

namespace Rag

/-- `chunk_size=1500` of the `RecursiveCharacterTextSplitter` call in
`_build_vector_store` (src/services/rag_service.py line 100). -/
def CHUNK_SIZE : Nat := 1500

/-- `chunk_overlap=200` of the same call. -/
def CHUNK_OVERLAP : Nat := 200

/-- Modelled from the spec: the text splitter itself is the third-party
`RecursiveCharacterTextSplitter`, whose code is not part of this
repository; only its configuration (`chunk_size=1500`,
`chunk_overlap=200`) is.  The spec describes the splitter as producing
overlapping fixed-size chunks by character count, falling back to a
hard character cut; this model is that hard-cut splitter: a text that
fits in one chunk is a single chunk, otherwise a full-size chunk is
emitted and splitting continues `CHUNK_SIZE - CHUNK_OVERLAP`
characters further on. -/
def split_text (s : List Char) : List (List Char) :=
  if s.length ≤ CHUNK_SIZE then [s]
  else s.take CHUNK_SIZE :: split_text (s.drop (CHUNK_SIZE - CHUNK_OVERLAP))
termination_by s.length
decreasing_by
  simp only [List.length_drop, CHUNK_SIZE, CHUNK_OVERLAP]
  omega

/-- The metadata dict attached to every chunk of one article
(src/services/rag_service.py lines 108-113): each value is a `.get`
with a default, so all fields are plain values here. -/
structure DocMeta where
  source : String
  title : String
  theme_id : Int
  snippet : String
deriving DecidableEq, Repr

/-- A LangChain `Document`: chunk text plus its article's metadata. -/
structure Document where
  page_content : List Char
  metadata : DocMeta
deriving DecidableEq, Repr

/-- The metadata built for one (themed) article in
`_build_vector_store`. -/
def mkMeta (a : Clustering.ThemedArticle) : DocMeta :=
  { source := a.article.url.getD ""
    title := a.article.title.getD "No Title"
    theme_id := a.theme_id
    snippet := a.article.snippet.getD "" }

/-- The `all_chunks` accumulation of `_build_vector_store`
(lines 101-117): articles with falsy or sub-100-character `full_text`
are skipped; every other article contributes one `Document` per
splitter chunk, in order. -/
def build_chunks (articles : List Clustering.ThemedArticle) :
    List Document :=
  articles.flatMap (fun a =>
    match a.article.full_text with
    | none => []
    | some text =>
        if text = "" ∨ text.length < 100 then []
        else (split_text text.data).map
          (fun c => { page_content := c, metadata := mkMeta a }))

/-- `_build_vector_store` (src/services/rag_service.py lines 96-128):
returns `None` when no chunk was produced; otherwise hands the chunks
to `FAISS.from_documents`, whose outcome is the parameter `faiss`
(`none` models the `except` branch that catches a FAISS failure and
returns `None`). -/
def _build_vector_store (faiss : List Document → Option (List Document))
    (articles : List Clustering.ThemedArticle) : Option (List Document) :=
  let all_chunks := build_chunks articles
  if all_chunks.isEmpty then none
  else faiss all_chunks

/-- The three task templates of src/services/rag_service.py
(`REPORT_PROMPT_TEMPLATE`, `TIMELINE_PROMPT_TEMPLATE`,
`CONTRADICTIONS_PROMPT_TEMPLATE`), modelled as the tagged variant the
spec prescribes for the parameterized synthesis operation; the prompt
wording itself plays no role in any claim. -/
inductive TaskTemplate where
  | report
  | timeline
  | contradictions
deriving DecidableEq, Repr

/-- The retrieval chain assembled by `_create_retrieval_chain`
(src/services/rag_service.py lines 130-140): the retriever is the
vector store with `search_kwargs={"k": 10}`, combined with the prompt
template. -/
structure RetrievalChain where
  k : Nat
  store : List Document
  prompt : TaskTemplate
deriving DecidableEq, Repr

/-- `_create_retrieval_chain` (lines 130-140). -/
def _create_retrieval_chain (vector_store : List Document)
    (prompt_template : TaskTemplate) : RetrievalChain :=
  { k := 10, store := vector_store, prompt := prompt_template }

/-- The dict returned by `retrieval_chain.invoke`: the generated
`answer` (a `.get` in the formatter, hence optional) and the `context`
list of retrieved documents. -/
structure RagResponse where
  answer : Option String
  context : List Document
deriving DecidableEq, Repr

/-- One `{title, url}` citation entry. -/
structure SourceEntry where
  title : String
  url : String
deriving DecidableEq, Repr

/-- The `{answer, sources}` dict every RAG entry point returns. -/
structure SynthesisResult where
  answer : String
  sources : List SourceEntry
deriving DecidableEq, Repr

/-- `_format_response` (src/services/rag_service.py lines 142-164):
walk the retrieved documents in rank order, keeping a `seen_urls` set;
a document whose `source` url is truthy and unseen appends a
`{title, url}` entry and marks the url seen.  `format_step` is the
loop body over the `(sources, seen_urls)` pair. -/
def format_step (acc : List SourceEntry × List String) (doc : Document) :
    List SourceEntry × List String :=
  let url := doc.metadata.source
  if url ≠ "" ∧ url ∉ acc.2 then
    (acc.1 ++ [{ title := doc.metadata.title, url := url }], url :: acc.2)
  else acc

/-- The rest of `_format_response`: the answer is the
`.get('answer', ...)` default when absent, stripped; the sources are
the accumulated loop result. -/
def _format_response (response : RagResponse) : SynthesisResult :=
  let answer := response.answer.getD "No answer could be generated."
  let folded := response.context.foldl format_step ([], [])
  { answer := answer.trim, sources := folded.1 }

/-- `_run_rag_query` (src/services/rag_service.py lines 171-195),
parameterized by its external collaborators: `llmLoaded` /
`embLoaded` — whether the module-level model clients initialized;
`faiss` — as in `_build_vector_store`; `invoke` —
`retrieval_chain.invoke({"input": query})`, `Except.error` when it
raises.  Every failure path returns an explanatory answer with no
sources; only a successful invocation reaches `_format_response`. -/
def _run_rag_query (llmLoaded embLoaded : Bool)
    (faiss : List Document → Option (List Document))
    (invoke : RetrievalChain → String → Except String RagResponse)
    (query : String) (articles : List Clustering.ThemedArticle)
    (prompt_template : TaskTemplate) : SynthesisResult :=
  if !llmLoaded ∨ !embLoaded then
    { answer := "Error: RAG models are not loaded.", sources := [] }
  else
    match _build_vector_store faiss articles with
    | none =>
        { answer := "No articles with enough content to build an answer."
          sources := [] }
    | some vector_store =>
        let retrieval_chain :=
          _create_retrieval_chain vector_store prompt_template
        match invoke retrieval_chain query with
        | Except.error _ =>
            { answer := "Error: The AI query failed.", sources := [] }
        | Except.ok response => _format_response response

/-- `get_summary_report` (src/services/rag_service.py lines 199-201). -/
def get_summary_report (llmLoaded embLoaded : Bool)
    (faiss : List Document → Option (List Document))
    (invoke : RetrievalChain → String → Except String RagResponse)
    (query : String) (articles : List Clustering.ThemedArticle) :
    SynthesisResult :=
  _run_rag_query llmLoaded embLoaded faiss invoke query articles .report

/-- `get_timeline` (lines 204-206). -/
def get_timeline (llmLoaded embLoaded : Bool)
    (faiss : List Document → Option (List Document))
    (invoke : RetrievalChain → String → Except String RagResponse)
    (query : String) (articles : List Clustering.ThemedArticle) :
    SynthesisResult :=
  _run_rag_query llmLoaded embLoaded faiss invoke query articles .timeline

/-- `get_contradictions` (lines 209-211). -/
def get_contradictions (llmLoaded embLoaded : Bool)
    (faiss : List Document → Option (List Document))
    (invoke : RetrievalChain → String → Except String RagResponse)
    (query : String) (articles : List Clustering.ThemedArticle) :
    SynthesisResult :=
  _run_rag_query llmLoaded embLoaded faiss invoke query articles
    .contradictions

/-- Spec-side restatement of source extraction (not the code): from
the chunks used as context, in retrieval rank order, emit a
`{title, url}` pair for each url not seen before (chunks with no url
contribute nothing), so every emitted entry carries the title of the
first chunk bearing its url. -/
def dedup_sources : List Document → List String → List SourceEntry
  | [], _ => []
  | doc :: rest, seen =>
      let url := doc.metadata.source
      if url ≠ "" ∧ url ∉ seen then
        { title := doc.metadata.title, url := url } ::
          dedup_sources rest (url :: seen)
      else dedup_sources rest seen

end Rag

/-! ## Helper lemmas -/

lemma filter_map_eq_filterMap {α β : Type} (p : α → Bool) (g : α → β) :
    ∀ l : List α,
      (l.filter p).map g
        = l.filterMap (fun a => if p a then some (g a) else none) := by
  intro l
  induction l with
  | nil => rfl
  | cons a l ih => by_cases h : p a <;> simp [h, ih]

lemma length_filter_add_length_filter_not {α : Type} (p : α → Bool) :
    ∀ l : List α,
      (l.filter p).length + (l.filter (fun a => !p a)).length = l.length := by
  intro l
  induction l with
  | nil => rfl
  | cons a l ih => by_cases h : p a <;> simp [h, ih] <;> omega

namespace NewsFetcher

lemma fetch_one_article_url (scrape : Option String → Option String)
    (url : Option String) : (fetch_one_article scrape url).url = url := by
  unfold fetch_one_article
  cases h : scrape url <;> simp

lemma fetch_one_article_of_none {scrape : Option String → Option String}
    {url : Option String} (h : scrape url = none) :
    fetch_one_article scrape url
      = { url := url, full_text := none, snippet := none
          published_date := none, status := .failed } := by
  unfold fetch_one_article
  rw [h]

lemma fetch_one_article_of_some {scrape : Option String → Option String}
    {url : Option String} {t : String} (h : scrape url = some t) :
    fetch_one_article scrape url
      = { url := url, full_text := some t
          snippet := some (t.take 150 ++ "...")
          published_date := some "2025-11-05", status := .success } := by
  unfold fetch_one_article
  rw [h]

lemma fetch_one_article_status (scrape : Option String → Option String)
    (url : Option String) :
    (fetch_one_article scrape url).status = .success
      ↔ (scrape url).isSome := by
  cases h : scrape url
  · rw [fetch_one_article_of_none h]
    simp
  · rw [fetch_one_article_of_some h]
    simp

lemma scraped_lookup_eq_some {scrape : Option String → Option String}
    {api : List ApiArticle} {u : Option String} {r : ScrapeResult}
    (h : scraped_lookup (scrape_results scrape api) u = some r) :
    r = fetch_one_article scrape u ∧ (scrape u).isSome := by
  unfold scraped_lookup at h
  have hmem := List.mem_of_find?_eq_some h
  have hpred := List.find?_some h
  rw [List.mem_reverse, List.mem_filter] at hmem
  obtain ⟨hin, hsucc⟩ := hmem
  unfold scrape_results at hin
  obtain ⟨a, _, rfl⟩ := List.mem_map.mp hin
  have hu : (fetch_one_article scrape a.url).url = u := by
    simpa using hpred
  rw [fetch_one_article_url] at hu
  subst hu
  refine ⟨rfl, ?_⟩
  rw [← fetch_one_article_status]
  simpa using hsucc

lemma scraped_lookup_isSome {scrape : Option String → Option String}
    {api : List ApiArticle} {a : ApiArticle} (ha : a ∈ api)
    (hs : (scrape a.url).isSome) :
    (scraped_lookup (scrape_results scrape api) a.url).isSome := by
  unfold scraped_lookup
  rw [List.find?_isSome]
  refine ⟨fetch_one_article scrape a.url, ?_, ?_⟩
  · rw [List.mem_reverse, List.mem_filter]
    refine ⟨List.mem_map.mpr ⟨a, ha, rfl⟩, ?_⟩
    simp [fetch_one_article_status, hs]
  · simp [fetch_one_article_url]

lemma scraped_lookup_of_scrape_none {scrape : Option String → Option String}
    {api : List ApiArticle} {u : Option String} (h : scrape u = none) :
    scraped_lookup (scrape_results scrape api) u = none := by
  cases hl : scraped_lookup (scrape_results scrape api) u with
  | none => rfl
  | some r =>
      exfalso
      have := (scraped_lookup_eq_some hl).2
      rw [h] at this
      simp at this

/-- Functional characterization of the acquisition merge: the output is
exactly the successfully scraped search results, in search order, each
merged with its scrape record. -/
lemma fetch_all_articles_eq (scrape : Option String → Option String)
    (api : List ApiArticle) :
    fetch_all_articles scrape api
      = (api.filter (fun a => (scrape a.url).isSome)).map
          (fun a => mergeArticle a (fetch_one_article scrape a.url)) := by
  unfold fetch_all_articles
  by_cases he : api.isEmpty
  · rw [if_pos he]
    rw [List.isEmpty_iff.mp he]
    rfl
  · rw [if_neg he, filter_map_eq_filterMap]
    apply List.filterMap_congr
    intro a ha
    by_cases hs : (scrape a.url).isSome
    · obtain ⟨r, hr⟩ :=
        Option.isSome_iff_exists.mp (scraped_lookup_isSome ha hs)
      have req := (scraped_lookup_eq_some hr).1
      rw [hr, req]
      simp [hs]
    · have hn : scrape a.url = none :=
        Option.not_isSome_iff_eq_none.mp hs
      rw [scraped_lookup_of_scrape_none hn]
      simp [hs]

end NewsFetcher

/-! ## Concrete witness data -/

/-- A concrete scrape environment: only `"http-a"` scrapes
successfully. -/
def wScrape : Option String → Option String := fun u =>
  if u = some "http-a" then some "long text body a" else none

/-- A concrete two-result search list; the second result's scrape
fails under `wScrape`. -/
def wApi : List NewsFetcher.ApiArticle :=
  [ { title := some "A", url := some "http-a", snippet := some "api says a"
      source_name := some "SA", published_at := some "2024-01-01" },
    { title := some "B", url := some "http-b", snippet := some "api says b"
      source_name := some "SB", published_at := some "2024-01-02" } ]

/-- The merged article the acquisition step produces for `wApi` under
`wScrape`. -/
def wMerged : NewsFetcher.Article :=
  { title := some "A", url := some "http-a"
    snippet := some "long text body a..."
    source_name := some "SA", published_at := some "2024-01-01"
    full_text := some "long text body a" }

/-! ## Claim C1 -/

/-- C1: `fetch_all_articles` returns exactly the search results whose
scrape succeeded, merged with their scraped `full_text`, in search
order; its length is the number of search results minus the number of
scrape failures; and no failed-scrape article (null `full_text`)
appears in the output. -/
theorem c1_fetch_all_articles_merge
    (scrape : Option String → Option String)
    (api : List NewsFetcher.ApiArticle) :
    NewsFetcher.fetch_all_articles scrape api
        = (api.filter (fun a => (scrape a.url).isSome)).map
            (fun a =>
              NewsFetcher.mergeArticle a
                (NewsFetcher.fetch_one_article scrape a.url))
      ∧ (NewsFetcher.fetch_all_articles scrape api).length
          = api.length
              - (api.filter (fun a => (scrape a.url).isNone)).length
      ∧ ∀ m ∈ NewsFetcher.fetch_all_articles scrape api,
          m.full_text ≠ none := by
  refine ⟨NewsFetcher.fetch_all_articles_eq scrape api, ?_, ?_⟩
  · rw [NewsFetcher.fetch_all_articles_eq, List.length_map]
    have hsum :=
      length_filter_add_length_filter_not
        (fun a => (scrape a.url).isSome) api
    have hcongr :
        api.filter (fun a => !(scrape a.url).isSome)
          = api.filter (fun a => (scrape a.url).isNone) := by
      apply List.filter_congr
      intro a _
      cases scrape a.url <;> simp
    rw [hcongr] at hsum
    omega
  · intro m hm
    rw [NewsFetcher.fetch_all_articles_eq] at hm
    obtain ⟨a, ha, rfl⟩ := List.mem_map.mp hm
    have hs := (List.mem_filter.mp ha).2
    obtain ⟨t, ht⟩ := Option.isSome_iff_exists.mp (by simpa using hs)
    rw [NewsFetcher.fetch_one_article_of_some ht]
    simp [NewsFetcher.mergeArticle]

set_option maxRecDepth 8000 in
/-- Witness for C1 at the concrete two-article input: the surviving
merged article is in the output and carries a non-null `full_text`. -/
theorem c1_fetch_all_articles_merge_witness :
    wMerged ∈ NewsFetcher.fetch_all_articles wScrape wApi
      ∧ wMerged.full_text ≠ none :=
  ⟨by decide,
   (c1_fetch_all_articles_merge wScrape wApi).2.2 wMerged (by decide)⟩

/-! ## Claim C7 -/

/-- C7: `fetch_one_article` is total — it returns a record carrying its
own url, tagged `failed` (with null text) exactly when the fetch raised
or timed out and `success` otherwise — and the `asyncio.gather` fan-out
settles with exactly one outcome per launched fetch, each outcome
depending only on that article's own url, so one article's failure
never aborts or removes a sibling's result. -/
theorem c7_fetch_one_article_isolated
    (scrape : Option String → Option String) (url : Option String)
    (api : List NewsFetcher.ApiArticle) :
    (NewsFetcher.fetch_one_article scrape url).url = url
      ∧ (scrape url = none →
          (NewsFetcher.fetch_one_article scrape url).status = .failed
            ∧ (NewsFetcher.fetch_one_article scrape url).full_text = none)
      ∧ (∀ t, scrape url = some t →
          (NewsFetcher.fetch_one_article scrape url).status = .success
            ∧ (NewsFetcher.fetch_one_article scrape url).full_text
                = some t)
      ∧ (NewsFetcher.scrape_results scrape api).length = api.length
      ∧ (∀ i : Nat, (NewsFetcher.scrape_results scrape api)[i]?
          = (api[i]?).map
              (fun a => NewsFetcher.fetch_one_article scrape a.url))
      ∧ ∀ (scrape' : Option String → Option String) (i : Nat)
          (a : NewsFetcher.ApiArticle), api[i]? = some a →
          scrape a.url = scrape' a.url →
          (NewsFetcher.scrape_results scrape api)[i]?
            = (NewsFetcher.scrape_results scrape' api)[i]? := by
  refine ⟨NewsFetcher.fetch_one_article_url scrape url, ?_, ?_, ?_, ?_, ?_⟩
  · intro h
    rw [NewsFetcher.fetch_one_article_of_none h]
    exact ⟨rfl, rfl⟩
  · intro t h
    rw [NewsFetcher.fetch_one_article_of_some h]
    exact ⟨rfl, rfl⟩
  · exact List.length_map api _
  · intro i
    simp [NewsFetcher.scrape_results]
  · intro scrape' i a ha hagree
    have : NewsFetcher.fetch_one_article scrape a.url
        = NewsFetcher.fetch_one_article scrape' a.url := by
      unfold NewsFetcher.fetch_one_article
      rw [hagree]
    simp [NewsFetcher.scrape_results, ha, this]

/-- Witness for C7: under `wScrape`, the second article's fetch fails
and is tagged `failed` with no text, while the sibling fan-out still
has one outcome per launched fetch. -/
theorem c7_fetch_one_article_isolated_witness :
    (NewsFetcher.fetch_one_article wScrape (some "http-b")).status
        = .failed
      ∧ (NewsFetcher.fetch_one_article wScrape (some "http-b")).full_text
          = none
      ∧ (NewsFetcher.scrape_results wScrape wApi).length = wApi.length :=
  have h := c7_fetch_one_article_isolated wScrape (some "http-b") wApi
  ⟨(h.2.1 (by decide)).1, (h.2.1 (by decide)).2, h.2.2.2.1⟩

/-! ## Claim C10 -/

/-- C10: every article surviving the acquisition merge keeps `title`,
`url`, `source_name` and `published_at` from its search-API result,
while its `snippet` is overwritten with the first 150 characters of the
scraped `full_text` followed by `"..."` (the search-API description is
discarded). -/
theorem c10_merge_overwrites_snippet
    (scrape : Option String → Option String)
    (api : List NewsFetcher.ApiArticle) (m : NewsFetcher.Article)
    (hm : m ∈ NewsFetcher.fetch_all_articles scrape api) :
    ∃ a ∈ api, ∃ text, scrape a.url = some text
      ∧ m.title = a.title ∧ m.url = a.url
      ∧ m.source_name = a.source_name
      ∧ m.published_at = a.published_at
      ∧ m.snippet = some (text.take 150 ++ "...")
      ∧ m.full_text = some text := by
  rw [NewsFetcher.fetch_all_articles_eq] at hm
  obtain ⟨a, ha, rfl⟩ := List.mem_map.mp hm
  have hfa := List.mem_filter.mp ha
  obtain ⟨t, ht⟩ := Option.isSome_iff_exists.mp (by simpa using hfa.2)
  refine ⟨a, hfa.1, t, ht, ?_⟩
  rw [NewsFetcher.fetch_one_article_of_some ht]
  simp [NewsFetcher.mergeArticle]

set_option maxRecDepth 8000 in
/-- Witness for C10 at the concrete input: the surviving article's
snippet is the scraped prefix plus `"..."`, not the API description. -/
theorem c10_merge_overwrites_snippet_witness :
    wMerged ∈ NewsFetcher.fetch_all_articles wScrape wApi
      ∧ ∃ a ∈ wApi, ∃ text, wScrape a.url = some text
          ∧ wMerged.title = a.title ∧ wMerged.url = a.url
          ∧ wMerged.source_name = a.source_name
          ∧ wMerged.published_at = a.published_at
          ∧ wMerged.snippet = some (text.take 150 ++ "...")
          ∧ wMerged.full_text = some text :=
  ⟨by decide,
   c10_merge_overwrites_snippet wScrape wApi wMerged (by decide)⟩

/-! ## Clustering lemmas -/

namespace Clustering

lemma setTheme_map_article (l : List ThemedArticle) (i : Nat) (t : Int) :
    (setTheme l i t).map (fun x => x.article)
      = l.map (fun x => x.article) := by
  induction l generalizing i with
  | nil => rfl
  | cons a rest ih =>
      cases i with
      | zero => simp [setTheme]
      | succ n => simp [setTheme, ih]

lemma setTheme_theme_mem {l : List ThemedArticle} {i : Nat} {t : Int}
    {x : ThemedArticle} (hx : x ∈ setTheme l i t) :
    x.theme_id = t ∨ ∃ y ∈ l, x.theme_id = y.theme_id := by
  induction l generalizing i with
  | nil => simp [setTheme] at hx
  | cons a rest ih =>
      cases i with
      | zero =>
          simp only [setTheme] at hx
          rcases List.mem_cons.mp hx with h | h
          · subst h
            exact Or.inl rfl
          · exact Or.inr ⟨x, List.mem_cons_of_mem a h, rfl⟩
      | succ n =>
          simp only [setTheme] at hx
          rcases List.mem_cons.mp hx with h | h
          · subst h
            exact Or.inr ⟨x, List.mem_cons_self x rest, rfl⟩
          · rcases ih h with h1 | ⟨y, hy, h2⟩
            · exact Or.inl h1
            · exact Or.inr ⟨y, List.mem_cons_of_mem a hy, h2⟩

lemma foldl_setTheme_map_article (ps : List (Nat × Int)) :
    ∀ l : List ThemedArticle,
      (ps.foldl (fun acc p => setTheme acc p.1 p.2) l).map
          (fun x => x.article)
        = l.map (fun x => x.article) := by
  induction ps with
  | nil => intro l; rfl
  | cons p ps ih =>
      intro l
      rw [List.foldl_cons, ih, setTheme_map_article]

lemma foldl_setTheme_theme_bound {ps : List (Nat × Int)}
    (hps : ∀ p ∈ ps, -1 ≤ p.2) :
    ∀ l : List ThemedArticle, (∀ x ∈ l, -1 ≤ x.theme_id) →
      ∀ x ∈ ps.foldl (fun acc p => setTheme acc p.1 p.2) l,
        -1 ≤ x.theme_id := by
  induction ps with
  | nil => intro l hl x hx; exact hl x hx
  | cons p ps ih =>
      intro l hl x hx
      rw [List.foldl_cons] at hx
      refine ih (fun q hq => hps q (List.mem_cons_of_mem p hq))
        (setTheme l p.1 p.2) ?_ x hx
      intro y hy
      rcases setTheme_theme_mem hy with h | ⟨z, hz, h⟩
      · rw [h]
        exact hps p (List.mem_cons_self p ps)
      · rw [h]
        exact hl z hz

lemma defaultThemes_map_article (articles : List NewsFetcher.Article) :
    (defaultThemes articles).map (fun x => x.article) = articles := by
  unfold defaultThemes
  rw [List.map_map]
  exact List.map_id articles

lemma defaultThemes_theme (articles : List NewsFetcher.Article) :
    ∀ x ∈ defaultThemes articles, -1 ≤ x.theme_id := by
  intro x hx
  obtain ⟨a, _, rfl⟩ := List.mem_map.mp hx
  exact le_refl (-1)

end Clustering

/-! ## Claim C2 -/

/-- C2: `group_by_theme` returns the input articles unchanged, in the
same positions (so nothing is reordered or dropped), with a `theme_id`
written on every element; assuming the DBSCAN interface contract that
labels are `-1` (noise) or non-negative cluster ids, every assigned
`theme_id` is `-1` or non-negative. -/
theorem c2_group_by_theme_total {E : Type} (modelLoaded : Bool)
    (encode : List String → Option (List E))
    (dbscan : List E → List Int)
    (articles : List NewsFetcher.Article)
    (hdb : ∀ es : List E, ∀ l ∈ dbscan es, -1 ≤ l) :
    (Clustering.group_by_theme modelLoaded encode dbscan articles).map
        (fun x => x.article) = articles
      ∧ ∀ ta ∈ Clustering.group_by_theme modelLoaded encode dbscan
          articles, ta.theme_id = -1 ∨ 0 ≤ ta.theme_id := by
  have hconv : ∀ t : Int, -1 ≤ t → (t = -1 ∨ 0 ≤ t) := by omega
  unfold Clustering.group_by_theme
  by_cases hm : modelLoaded
  case neg =>
    rw [if_pos (by simp [hm])]
    constructor
    · rw [List.map_map]
      exact List.enum_map_snd articles
    · intro ta hta
      obtain ⟨p, _, rfl⟩ := List.mem_map.mp hta
      exact Or.inr (Int.natCast_nonneg p.1)
  case pos =>
    rw [if_neg (by simp [hm])]
    by_cases he : articles.isEmpty
    · rw [if_pos he]
      rw [List.isEmpty_iff.mp he]
      exact ⟨rfl, by intro ta hta; simp at hta⟩
    · rw [if_neg he]
      by_cases hc : (Clustering.articles_to_cluster articles).isEmpty
      · rw [if_pos hc]
        exact ⟨Clustering.defaultThemes_map_article articles,
          fun ta hta =>
            hconv ta.theme_id
              (Clustering.defaultThemes_theme articles ta hta)⟩
      · rw [if_neg hc]
        cases henc : encode ((Clustering.articles_to_cluster
            articles).map (fun q => q.2)) with
        | none =>
            exact ⟨Clustering.defaultThemes_map_article articles,
              fun ta hta =>
                hconv ta.theme_id
                  (Clustering.defaultThemes_theme articles ta hta)⟩
        | some embeddings =>
            unfold Clustering.assignLabels
            constructor
            · rw [Clustering.foldl_setTheme_map_article]
              exact Clustering.defaultThemes_map_article articles
            · intro ta hta
              refine hconv ta.theme_id
                (Clustering.foldl_setTheme_theme_bound ?_ _
                  (Clustering.defaultThemes_theme articles) ta hta)
              intro p hp
              exact hdb embeddings p.2 (List.of_mem_zip hp).2

/-- Witness for C2 at a concrete input: with a two-article list, an
encoder that embeds each text as its length and a DBSCAN returning one
cluster label and one noise label, the output articles are the inputs
in order and every theme is `-1` or non-negative. -/
theorem c2_group_by_theme_total_witness :
    (Clustering.group_by_theme (E := Nat) true
        (fun ts => some (ts.map String.length))
        (fun es => es.map (fun _ => (0 : Int)))
        [wMerged]).map (fun x => x.article) = [wMerged]
      ∧ ∀ ta ∈ Clustering.group_by_theme (E := Nat) true
          (fun ts => some (ts.map String.length))
          (fun es => es.map (fun _ => (0 : Int)))
          [wMerged], ta.theme_id = -1 ∨ 0 ≤ ta.theme_id :=
  c2_group_by_theme_total true (fun ts => some (ts.map String.length))
    (fun es => es.map (fun _ => (0 : Int))) [wMerged]
    (by
      intro es l hl
      obtain ⟨e, _, rfl⟩ := List.mem_map.mp hl
      omega)

/-! ## Claim C4 (corrected) -/

namespace GnewsFetcher

lemma extract_items_error {items : List GnewsItem} {i : GnewsItem}
    (hi : i ∈ items) (hbad : i.title = none) :
    ∃ e, extract_items items = Except.error e := by
  induction items with
  | nil => cases hi
  | cons a rest ih =>
      rcases List.mem_cons.mp hi with h | h
      · subst h
        exact ⟨"KeyError",
          by simp [extract_items, Bind.bind, Except.bind, Functor.map, Except.map, hbad, requireField]⟩
      · obtain ⟨e, he⟩ := ih h
        cases ht : a.title with
        | none =>
            exact ⟨"KeyError",
              by simp [extract_items, Bind.bind, Except.bind, Functor.map, Except.map, ht, requireField]⟩
        | some t =>
        cases hu : a.url with
        | none =>
            exact ⟨"KeyError",
              by simp [extract_items, Bind.bind, Except.bind, Functor.map, Except.map, ht, hu, requireField]⟩
        | some u =>
        cases hs : a.source with
        | none =>
            exact ⟨"KeyError",
              by simp [extract_items, Bind.bind, Except.bind, Functor.map, Except.map, ht, hu, hs, requireField]⟩
        | some s =>
        cases hn : s.name with
        | none =>
            exact ⟨"KeyError",
              by simp [extract_items, Bind.bind, Except.bind, Functor.map, Except.map, ht, hu, hs, hn, requireField]⟩
        | some n =>
        cases hp : a.publishedAt with
        | none =>
            exact ⟨"KeyError",
              by simp [extract_items, Bind.bind, Except.bind, Functor.map, Except.map, ht, hu, hs, hn, hp, requireField]⟩
        | some p =>
            exact ⟨e,
              by simp [extract_items, Bind.bind, Except.bind, Functor.map, Except.map, ht, hu, hs, hn, hp, requireField,
                he]⟩

end GnewsFetcher

/-- A concrete GNews item missing its `"title"` key. -/
def wBadItem : GnewsFetcher.GnewsItem :=
  { title := none, url := some "u"
    source := some { name := some "s" }, publishedAt := some "p" }

/-- C4 counterexample: the claim says every failure of the search step
yields an empty sequence instead of an exception, but the GNews variant
of the step propagates the exception of a failed `requests.get`
(network error) to its caller instead of returning `[]`. -/
theorem c4_counterexample_gnews_raises :
    GnewsFetcher.fetch_news none
      = Except.error "requests.get raised" := rfl

/-- C4 amended: the NewsAPI search step (services/news_fetcher.py)
returns an empty sequence on any failure — missing key, HTTP error
status, network error or malformed payload; the GNews search step
(app/gnews_fetcher.py) returns an empty sequence only for a payload
without an `"articles"` key, and propagates exceptions raised by the
HTTP call, by JSON decoding, or by a missing item field. -/
theorem c4_search_step_error_handling (hasKey : Bool)
    (r : Option NewsFetcher.NewsApiData) (d : GnewsFetcher.GnewsData)
    (items : List GnewsFetcher.GnewsItem) (i : GnewsFetcher.GnewsItem)
    (hd : d.articles = none) (hi : i ∈ items) (hbad : i.title = none) :
    NewsFetcher.fetch_news hasKey none = []
      ∧ NewsFetcher.fetch_news false r = []
      ∧ (∃ e, GnewsFetcher.fetch_news none = Except.error e)
      ∧ (∃ e, GnewsFetcher.fetch_news (some none) = Except.error e)
      ∧ GnewsFetcher.fetch_news (some (some d)) = Except.ok []
      ∧ ∃ e, GnewsFetcher.fetch_news
          (some (some { articles := some items })) = Except.error e := by
  refine ⟨?_, ?_, ⟨_, rfl⟩, ⟨_, rfl⟩, ?_, ?_⟩
  · unfold NewsFetcher.fetch_news
    cases hasKey <;> simp
  · rfl
  · simp [GnewsFetcher.fetch_news, hd]
  · simpa [GnewsFetcher.fetch_news] using
      GnewsFetcher.extract_items_error hi hbad

/-- Witness for C4 (amended) at concrete inputs: a payload without an
`"articles"` key gives `Except.ok []`, a network failure gives an
error, and an item lacking `"title"` raises `KeyError`. -/
theorem c4_search_step_error_handling_witness :
    NewsFetcher.fetch_news true none = []
      ∧ (∃ e, GnewsFetcher.fetch_news none = Except.error e)
      ∧ GnewsFetcher.fetch_news (some (some { articles := none }))
          = Except.ok []
      ∧ ∃ e, GnewsFetcher.fetch_news
          (some (some { articles := some [wBadItem] }))
            = Except.error e :=
  have h := c4_search_step_error_handling true none
    { articles := none } [wBadItem] wBadItem rfl
    (List.mem_singleton.mpr rfl) rfl
  ⟨h.1, h.2.2.1, h.2.2.2.2.1, h.2.2.2.2.2⟩

/-! ## Claim C6 (corrected) -/

/-- C6 counterexample: the claim says the single-task flow retrieves
the top 5 chunks, but the retriever built for the summary-report flow
uses `k = 10`. -/
theorem c6_counterexample_k_not_five :
    (Rag._create_retrieval_chain [] Rag.TaskTemplate.report).k ≠ 5 := by
  decide

/-- C6 amended: every retrieval chain — whatever the task template and
whichever of the three flows builds it — retrieves the top 10 chunks
by similarity (`search_kwargs={"k": 10}`). -/
theorem c6_retrieval_k_is_ten (vector_store : List Rag.Document)
    (prompt_template : Rag.TaskTemplate) :
    (Rag._create_retrieval_chain vector_store prompt_template).k = 10 :=
  rfl

/-! ## Claim C8 -/

/-- C8: `extract_text` implements exactly the spec's extraction
policy — return the primary (Newspaper3k) text when it exceeds the
minimum length threshold, else the fallback (Trafilatura) text when
that one exceeds the threshold, else the empty string — and, being a
total function of the two heuristic outcomes, it never raises. -/
theorem c8_extract_text_policy (primary : Option String)
    (fallback : Option (Option String)) :
    Extractor.extract_text primary fallback
      = Extractor.extract_text_spec primary fallback := by
  cases primary with
  | some t =>
      by_cases ht : t.length > Extractor.MIN_TEXT_LEN
      · simp [Extractor.extract_text, Extractor.extract_text_spec,
          Extractor.sufficient, ht]
      · simp only [Extractor.extract_text, if_neg ht,
          Extractor.extract_text_spec, Extractor.sufficient]
        rw [if_neg (by simpa using ht)]
        cases fallback with
        | none => rfl
        | some fb =>
            cases fb with
            | none => rfl
            | some e =>
                by_cases hlen : e.length > Extractor.MIN_TEXT_LEN
                · have hne : e ≠ "" := by
                    intro hcontra
                    subst hcontra
                    simp [Extractor.MIN_TEXT_LEN] at hlen
                  simp [Extractor.extract_fallback, hlen, hne,
                    Extractor.sufficient]
                · simp [Extractor.extract_fallback, hlen,
                    Extractor.sufficient]
  | none =>
      simp only [Extractor.extract_text, Extractor.extract_text_spec,
        Extractor.sufficient]
      rw [if_neg (by simp)]
      cases fallback with
      | none => rfl
      | some fb =>
          cases fb with
          | none => rfl
          | some e =>
              by_cases hlen : e.length > Extractor.MIN_TEXT_LEN
              · have hne : e ≠ "" := by
                  intro hcontra
                  subst hcontra
                  simp [Extractor.MIN_TEXT_LEN] at hlen
                simp [Extractor.extract_fallback, hlen, hne,
                  Extractor.sufficient]
              · simp [Extractor.extract_fallback, hlen,
                  Extractor.sufficient]

/-! ## Claim C5 -/

namespace Rag

lemma foldl_format_step (docs : List Document) :
    ∀ (acc : List SourceEntry) (seen : List String),
      (docs.foldl format_step (acc, seen)).1
        = acc ++ dedup_sources docs seen := by
  induction docs with
  | nil => intro acc seen; simp [dedup_sources]
  | cons doc rest ih =>
      intro acc seen
      rw [List.foldl_cons]
      by_cases h : doc.metadata.source ≠ "" ∧ doc.metadata.source ∉ seen
      · rw [show format_step (acc, seen) doc
            = (acc ++ [{ title := doc.metadata.title
                         url := doc.metadata.source }],
               doc.metadata.source :: seen) from by
            simp [format_step, h]]
        rw [ih, dedup_sources, if_pos h]
        simp
      · rw [show format_step (acc, seen) doc = (acc, seen) from by
            simp [format_step, h]]
        rw [ih, dedup_sources, if_neg h]

lemma dedup_sources_urls (docs : List Document) :
    ∀ seen : List String,
      ((dedup_sources docs seen).map (fun s => s.url)).Nodup
        ∧ ∀ u ∈ (dedup_sources docs seen).map (fun s => s.url),
            u ∉ seen ∧ u ≠ "" := by
  induction docs with
  | nil => intro seen; simp [dedup_sources]
  | cons doc rest ih =>
      intro seen
      by_cases h : doc.metadata.source ≠ "" ∧ doc.metadata.source ∉ seen
      · rw [dedup_sources, if_pos h]
        have hrest := ih (doc.metadata.source :: seen)
        constructor
        · rw [List.map_cons, List.nodup_cons]
          refine ⟨?_, hrest.1⟩
          intro hmem
          exact ((hrest.2 _ hmem).1) (List.mem_cons_self _ _)
        · intro u hu
          rw [List.map_cons] at hu
          rcases List.mem_cons.mp hu with h1 | h1
          · subst h1
            exact ⟨h.2, h.1⟩
          · have := hrest.2 u h1
            exact ⟨fun hc => this.1 (List.mem_cons_of_mem _ hc), this.2⟩
      · rw [dedup_sources, if_neg h]
        exact ih seen

end Rag

/-- C5: the sources of every `SynthesisResult` produced by
`_format_response` are exactly the spec's first-occurrence-wins
deduplication of the retrieved chunks (so each `{title, url}` entry
comes from the first retrieved chunk bearing that url, in retrieval
rank order), the url values are pairwise distinct, and chunks with no
url contribute no entry. -/
theorem c5_format_response_dedup (response : Rag.RagResponse) :
    (Rag._format_response response).sources
        = Rag.dedup_sources response.context []
      ∧ ((Rag._format_response response).sources.map
          (fun s => s.url)).Nodup
      ∧ ∀ s ∈ (Rag._format_response response).sources, s.url ≠ "" := by
  have hsrc : (Rag._format_response response).sources
      = Rag.dedup_sources response.context [] := by
    show (response.context.foldl Rag.format_step ([], [])).1
      = Rag.dedup_sources response.context []
    rw [Rag.foldl_format_step response.context [] []]
    rfl
  refine ⟨hsrc, ?_, ?_⟩
  · rw [hsrc]
    exact (Rag.dedup_sources_urls response.context []).1
  · intro s hs
    rw [hsrc] at hs
    exact ((Rag.dedup_sources_urls response.context []).2 s.url
      (List.mem_map.mpr ⟨s, hs, rfl⟩)).2

/-- A concrete retrieved-chunk list: two distinct urls, one repeated
url and one url-less chunk. -/
def wContext : List Rag.Document :=
  [ { page_content := ['a']
      metadata := { source := "u1", title := "t1", theme_id := 0
                    snippet := "" } },
    { page_content := ['b']
      metadata := { source := "", title := "t2", theme_id := 0
                    snippet := "" } },
    { page_content := ['c']
      metadata := { source := "u1", title := "t3", theme_id := 0
                    snippet := "" } },
    { page_content := ['d']
      metadata := { source := "u2", title := "t4", theme_id := -1
                    snippet := "" } } ]

/-- A concrete RAG response over `wContext`. -/
def wResponse : Rag.RagResponse :=
  { answer := some "ans", context := wContext }

/-- Witness for C5 at the concrete context: the deduplicated sources
keep the first chunk per url, their urls are distinct and non-empty. -/
theorem c5_format_response_dedup_witness :
    (Rag._format_response wResponse).sources
        = Rag.dedup_sources wContext []
      ∧ ({ title := "t1", url := "u1" } : Rag.SourceEntry)
          ∈ (Rag._format_response wResponse).sources
      ∧ ({ title := "t1", url := "u1" } : Rag.SourceEntry).url ≠ "" :=
  have h := c5_format_response_dedup wResponse
  ⟨h.1, by decide,
   h.2.2 { title := "t1", url := "u1" } (by decide)⟩

/-! ## Claim C3 -/

/-- C3: `_run_rag_query` (and hence the three public task functions,
which only fix the template) always returns a `{answer, sources}`
result and fails closed: whenever the models are unavailable, the
vector store cannot be built (no chunks, or FAISS failure), or the
retrieval/generation invocation raises, the result is one of the three
explanatory answers with an empty sources list. -/
theorem c3_run_rag_query_fails_closed (llmLoaded embLoaded : Bool)
    (faiss : List Rag.Document → Option (List Rag.Document))
    (invoke : Rag.RetrievalChain → String →
      Except String Rag.RagResponse)
    (query : String) (articles : List Clustering.ThemedArticle)
    (prompt_template : Rag.TaskTemplate)
    (h : llmLoaded = false ∨ embLoaded = false
      ∨ Rag._build_vector_store faiss articles = none
      ∨ ∀ c q, ∃ e, invoke c q = Except.error e) :
    ((Rag._run_rag_query llmLoaded embLoaded faiss invoke query
          articles prompt_template).sources = []
      ∧ ((Rag._run_rag_query llmLoaded embLoaded faiss invoke query
            articles prompt_template).answer
              = "Error: RAG models are not loaded."
        ∨ (Rag._run_rag_query llmLoaded embLoaded faiss invoke query
            articles prompt_template).answer
              = "No articles with enough content to build an answer."
        ∨ (Rag._run_rag_query llmLoaded embLoaded faiss invoke query
            articles prompt_template).answer
              = "Error: The AI query failed."))
      ∧ Rag.get_summary_report llmLoaded embLoaded faiss invoke query
          articles
        = Rag._run_rag_query llmLoaded embLoaded faiss invoke query
            articles .report
      ∧ Rag.get_timeline llmLoaded embLoaded faiss invoke query
          articles
        = Rag._run_rag_query llmLoaded embLoaded faiss invoke query
            articles .timeline
      ∧ Rag.get_contradictions llmLoaded embLoaded faiss invoke query
          articles
        = Rag._run_rag_query llmLoaded embLoaded faiss invoke query
            articles .contradictions := by
  refine ⟨?_, rfl, rfl, rfl⟩
  unfold Rag._run_rag_query
  by_cases hm : (!llmLoaded ∨ !embLoaded : Prop)
  · rw [if_pos hm]
    exact ⟨rfl, Or.inl rfl⟩
  · rw [if_neg hm]
    have hll : llmLoaded = true := by
      cases llmLoaded
      · exact absurd (Or.inl rfl) hm
      · rfl
    have hee : embLoaded = true := by
      cases embLoaded
      · exact absurd (Or.inr rfl) hm
      · rfl
    rcases h with h | h | h | h
    · rw [hll] at h
      cases h
    · rw [hee] at h
      cases h
    · rw [h]
      exact ⟨rfl, Or.inr (Or.inl rfl)⟩
    · cases hb : Rag._build_vector_store faiss articles with
      | none => exact ⟨rfl, Or.inr (Or.inl rfl)⟩
      | some vs =>
          obtain ⟨e, he⟩ :=
            h (Rag._create_retrieval_chain vs prompt_template) query
          simp [he]

/-- A concrete always-failing FAISS constructor. -/
def wFaiss : List Rag.Document → Option (List Rag.Document) :=
  fun _ => none

/-- A concrete always-raising chain invocation. -/
def wInvoke : Rag.RetrievalChain → String →
    Except String Rag.RagResponse :=
  fun _ _ => Except.error "invoke raised"

/-- Witness for C3 at a concrete failing configuration (models not
loaded): the result has empty sources and an explanatory answer, and
the summary-report wrapper delegates to the master function. -/
theorem c3_run_rag_query_fails_closed_witness :
    (Rag._run_rag_query false true wFaiss wInvoke "q" []
        Rag.TaskTemplate.report).sources = []
      ∧ Rag.get_summary_report false true wFaiss wInvoke "q" []
          = Rag._run_rag_query false true wFaiss wInvoke "q" []
              .report :=
  have h := c3_run_rag_query_fails_closed false true wFaiss wInvoke
    "q" [] .report (Or.inl rfl)
  ⟨h.1.1, h.2.1⟩

/-! ## Claim C9 -/

namespace Rag

lemma split_text_chunk_le (s : List Char) :
    ∀ c ∈ split_text s, c.length ≤ CHUNK_SIZE := by
  induction s using split_text.induct with
  | case1 s h =>
      rw [split_text, if_pos h]
      intro c hc
      rw [List.mem_singleton] at hc
      subst hc
      exact h
  | case2 s h ih =>
      rw [split_text, if_neg h]
      intro c hc
      rcases List.mem_cons.mp hc with h1 | h1
      · subst h1
        exact List.length_take_le _ _
      · exact ih c h1

lemma split_text_head_take {s : List Char} {c : List Char}
    (h : (split_text s)[0]? = some c) :
    c.take CHUNK_OVERLAP = s.take CHUNK_OVERLAP := by
  rw [split_text] at h
  by_cases hle : s.length ≤ CHUNK_SIZE
  · rw [if_pos hle, List.getElem?_cons_zero] at h
    injection h with h
    subst h
    rfl
  · rw [if_neg hle, List.getElem?_cons_zero] at h
    injection h with h
    subst h
    rw [List.take_take]
    have : min CHUNK_OVERLAP CHUNK_SIZE = CHUNK_OVERLAP := by decide
    rw [this]

lemma split_text_consecutive (s : List Char) :
    ∀ (i : Nat) (c₁ c₂ : List Char),
      (split_text s)[i]? = some c₁ → (split_text s)[i + 1]? = some c₂ →
        c₁.length = CHUNK_SIZE
          ∧ c₁.drop (CHUNK_SIZE - CHUNK_OVERLAP) = c₂.take CHUNK_OVERLAP
          ∧ (c₁.drop (CHUNK_SIZE - CHUNK_OVERLAP)).length
              = CHUNK_OVERLAP := by
  induction s using split_text.induct with
  | case1 s h =>
      intro i c₁ c₂ h1 h2
      rw [split_text, if_pos h] at h2
      exfalso
      have hnone : ([s] : List (List Char))[i + 1]? = none := by
        rw [List.getElem?_cons_succ]
        exact List.getElem?_nil
      rw [hnone] at h2
      exact Option.noConfusion h2
  | case2 s h ih =>
      intro i c₁ c₂ h1 h2
      rw [split_text, if_neg h] at h1 h2
      cases i with
      | zero =>
          rw [List.getElem?_cons_zero] at h1
          injection h1 with h1
          subst h1
          rw [List.getElem?_cons_succ] at h2
          have hlen : CHUNK_SIZE < s.length := Nat.lt_of_not_le h
          refine ⟨?_, ?_, ?_⟩
          · rw [List.length_take]
            omega
          · rw [List.drop_take]
            have heq : CHUNK_SIZE - (CHUNK_SIZE - CHUNK_OVERLAP)
                = CHUNK_OVERLAP := by decide
            rw [heq]
            exact (split_text_head_take h2).symm
          · rw [List.drop_take, List.length_take, List.length_drop]
            have h200 : CHUNK_SIZE - (CHUNK_SIZE - CHUNK_OVERLAP)
                = CHUNK_OVERLAP := by decide
            rw [h200]
            have : CHUNK_OVERLAP ≤ s.length - (CHUNK_SIZE - CHUNK_OVERLAP)
                := by
              simp only [CHUNK_SIZE, CHUNK_OVERLAP] at hlen ⊢
              omega
            omega
      | succ n =>
          rw [List.getElem?_cons_succ] at h1 h2
          exact ih n c₁ c₂ h1 h2

end Rag

/-- C9: every chunk the Index Builder's splitter produces for an
article is at most `CHUNK_SIZE = 1500` characters long; the documents
built for one article are exactly its splitter chunks in order; and
any two consecutive chunks of one article's text overlap by exactly
`CHUNK_OVERLAP = 200` characters (the earlier chunk's trailing 200
characters are the later chunk's leading 200 characters). -/
theorem c9_chunk_size_and_overlap
    (articles : List Clustering.ThemedArticle) (s : List Char) :
    (∀ d ∈ Rag.build_chunks articles,
        d.page_content.length ≤ Rag.CHUNK_SIZE)
      ∧ (∀ (a : Clustering.ThemedArticle) (text : String),
          a.article.full_text = some text →
          ¬(text = "" ∨ text.length < 100) →
          (Rag.build_chunks [a]).map (fun d => d.page_content)
            = Rag.split_text text.data)
      ∧ (∀ (i : Nat) (c₁ c₂ : List Char),
          (Rag.split_text s)[i]? = some c₁ →
          (Rag.split_text s)[i + 1]? = some c₂ →
          c₁.drop (Rag.CHUNK_SIZE - Rag.CHUNK_OVERLAP)
              = c₂.take Rag.CHUNK_OVERLAP
            ∧ (c₁.drop (Rag.CHUNK_SIZE - Rag.CHUNK_OVERLAP)).length
                = Rag.CHUNK_OVERLAP) := by
  refine ⟨?_, ?_, ?_⟩
  · intro d hd
    unfold Rag.build_chunks at hd
    rw [List.mem_flatMap] at hd
    obtain ⟨a, _, hd2⟩ := hd
    cases hft : a.article.full_text with
    | none =>
        rw [hft] at hd2
        simp at hd2
    | some text =>
        rw [hft] at hd2
        by_cases hskip : text = "" ∨ text.length < 100
        · simp [hskip] at hd2
        · simp only [hskip, if_false] at hd2
          obtain ⟨c, hc, hdc⟩ := List.mem_map.mp hd2
          rw [← hdc]
          exact Rag.split_text_chunk_le text.data c hc
  · intro a text hft hskip
    unfold Rag.build_chunks
    rw [List.flatMap_singleton, hft]
    show ((if text = "" ∨ text.length < 100 then []
        else (Rag.split_text text.data).map
          (fun c => ({ page_content := c, metadata := Rag.mkMeta a }
            : Rag.Document))).map (fun d => d.page_content))
      = Rag.split_text text.data
    rw [if_neg hskip, List.map_map]
    exact List.map_id _
  · intro i c₁ c₂ h1 h2
    exact (Rag.split_text_consecutive s i c₁ c₂ h1 h2).2

/-- A concrete 1501-character article body: long enough for two
overlapping chunks. -/
def wLongText : List Char := List.replicate 1501 'x'

/-- Its first splitter chunk (characters 0-1499). -/
def wChunk0 : List Char := List.replicate 1500 'x'

/-- Its second splitter chunk (characters 1300-1500). -/
def wChunk1 : List Char := List.replicate 201 'x'

/-- Witness for C9 at the concrete 1501-character text: the two
consecutive chunks share exactly the configured 200-character
overlap. -/
theorem c9_chunk_size_and_overlap_witness :
    (Rag.split_text wLongText)[0]? = some wChunk0
      ∧ (Rag.split_text wLongText)[0 + 1]? = some wChunk1
      ∧ wChunk0.drop (Rag.CHUNK_SIZE - Rag.CHUNK_OVERLAP)
          = wChunk1.take Rag.CHUNK_OVERLAP
      ∧ (wChunk0.drop (Rag.CHUNK_SIZE - Rag.CHUNK_OVERLAP)).length
          = Rag.CHUNK_OVERLAP := by
  have hnotle : ¬ wLongText.length ≤ Rag.CHUNK_SIZE := by
    rw [wLongText, List.length_replicate]
    decide
  have h1 : (Rag.split_text wLongText)[0]? = some wChunk0 := by
    rw [Rag.split_text, if_neg hnotle, List.getElem?_cons_zero,
      wLongText, List.take_replicate, wChunk0]
    rw [show min Rag.CHUNK_SIZE 1501 = 1500 from by decide]
  have h2 : (Rag.split_text wLongText)[0 + 1]? = some wChunk1 := by
    rw [Rag.split_text, if_neg hnotle, List.getElem?_cons_succ,
      wLongText, List.drop_replicate]
    rw [show 1501 - (Rag.CHUNK_SIZE - Rag.CHUNK_OVERLAP) = 201 from
      by decide]
    rw [Rag.split_text,
      if_pos (by rw [List.length_replicate]; decide),
      List.getElem?_cons_zero, wChunk1]
  exact ⟨h1, h2,
    (c9_chunk_size_and_overlap [] wLongText).2.2 0 wChunk0 wChunk1
      h1 h2⟩
